import Mathlib

/-!
# Trip Logbook — verification of the local persistence and query layer

Shallow embedding of the `TripDatabase` class (IndexedDB wrapper) of the
Trip Logbook repository.  The two object stores (`trips`, `photos`) are
modelled as lists of records together with their auto-increment key
generators.  IndexedDB semantics that matter here:

* `store.add(obj)` with `keyPath: 'id', autoIncrement: true` uses the
  in-object `id` as the key when the object carries one (failing with a
  `ConstraintError` when that key already exists) and otherwise draws a
  fresh key from the generator; an explicit key ≥ the generator bumps the
  generator past it.
* `store.put(obj)` is an upsert: it overwrites the record at the object's
  key, or inserts it when absent; it bumps the generator in the same way.
* `store.delete(k)` removes the record with key `k` (a no-op when absent).
* `store.clear()` removes all records but does NOT reset the key generator.
* `store.getAll()` returns the records in key order; `index.getAll(v)`
  returns the records whose indexed field equals `v`, in primary-key order.
* `Array.prototype.sort` is a stable sort; we realise it with
  `List.insertionSort`, which is stable for a total preorder.

Timestamps (`new Date().toISOString()`) are modelled as naturals passed in
explicitly (ISO-8601 strings compare lexicographically exactly as their
instants compare).  JS fields that may be `undefined` are `Option`s; JS
truthiness of a string field (`filter(Boolean)`, `t.place ? …`) is
"present and non-empty".  Record fields not touched by any verified
operation (tags, endDate, coverPhoto, lat/lng, photo name/type) are
omitted; they are carried opaquely by the code.
-/

namespace TripLogbook

/-- Caller-supplied trip payload, as handed to `addTrip` / `updateTrip`.
JS objects may lack fields, hence the `Option`s; `startDate` is the parsed
instant of the date string. -/
structure TripData where
  id : Option Nat
  title : Option String
  country : Option String
  city : Option String
  place : Option String
  startDate : Nat
  notes : Option String
  favorite : Bool
  createdAt : Option Nat
  updatedAt : Option Nat
deriving DecidableEq

/-- A trip record as stored in the `trips` object store: the key `id` is
always present, `updatedAt` is always set by `addTrip`/`updateTrip`;
`createdAt` is whatever the writing operation put there (`updateTrip`
copies it from the caller's payload, so it can be absent). -/
structure Trip where
  id : Nat
  title : Option String
  country : Option String
  city : Option String
  place : Option String
  startDate : Nat
  notes : Option String
  favorite : Bool
  createdAt : Option Nat
  updatedAt : Nat
deriving DecidableEq

/-- Caller-supplied photo payload (`addPhoto` argument). -/
structure PhotoData where
  id : Option Nat
  tripId : Nat
  data : String
deriving DecidableEq

/-- A photo record as stored in the `photos` object store. -/
structure Photo where
  id : Nat
  tripId : Nat
  data : String
deriving DecidableEq

/-- The database state: the two object stores plus their auto-increment
key generators (IndexedDB generators start at 1). -/
structure DB where
  trips : List Trip
  photos : List Photo
  tripGen : Nat
  photoGen : Nat
deriving DecidableEq

/-- A freshly opened `TripLogbookDB`. -/
def emptyDB : DB := { trips := [], photos := [], tripGen := 1, photoGen := 1 }

/-- Errors surfaced by the store operations: IndexedDB's `ConstraintError`
(add with an existing key) and the `Invalid data format` throw of
`importData`. -/
inductive DBError where
  | constraintError
  | invalidDataFormat
deriving DecidableEq

/-- The record built by `addTrip`:
`{ ...tripData, createdAt: now, updatedAt: now }` stored under key `k`. -/
def mkAddedTrip (k now : Nat) (td : TripData) : Trip :=
  { id := k, title := td.title, country := td.country, city := td.city,
    place := td.place, startDate := td.startDate, notes := td.notes,
    favorite := td.favorite, createdAt := some now, updatedAt := now }

/-- The record built by `updateTrip`:
`{ ...tripData, id: parseInt(id), updatedAt: now }` — note `createdAt`
comes from the caller's payload. -/
def mkUpdatedTrip (k now : Nat) (td : TripData) : Trip :=
  { id := k, title := td.title, country := td.country, city := td.city,
    place := td.place, startDate := td.startDate, notes := td.notes,
    favorite := td.favorite, createdAt := td.createdAt, updatedAt := now }

/-- `addTrip(tripData)`: spreads the payload, stamps `createdAt` and
`updatedAt` with the current time and `store.add`s it.  The spread keeps a
caller-supplied `id`, so `add` uses it as the key (ConstraintError on
collision); only a payload without `id` receives a generated key. -/
def addTrip (now : Nat) (td : TripData) (db : DB) : Except DBError (Nat × DB) :=
  match td.id with
  | some k =>
      if db.trips.any (fun t => t.id == k) then
        .error .constraintError
      else
        .ok (k, { db with trips := db.trips ++ [mkAddedTrip k now td],
                          tripGen := max db.tripGen (k + 1) })
  | none =>
      .ok (db.tripGen, { db with trips := db.trips ++ [mkAddedTrip db.tripGen now td],
                                 tripGen := db.tripGen + 1 })

/-- `updateTrip(id, tripData)`: builds `{...tripData, id, updatedAt: now}`
and `store.put`s it — an upsert that replaces the record at `id` or
creates one when none exists.  `put` resolves with the key. -/
def updateTrip (now idv : Nat) (td : TripData) (db : DB) : Nat × DB :=
  if db.trips.any (fun t => t.id == idv) then
    (idv, { db with trips := db.trips.map (fun t => if t.id == idv then mkUpdatedTrip idv now td else t),
                    tripGen := max db.tripGen (idv + 1) })
  else
    (idv, { db with trips := db.trips ++ [mkUpdatedTrip idv now td],
                    tripGen := max db.tripGen (idv + 1) })

/-- `getTrip(id)`: `store.get(parseInt(id))` — the record with that key. -/
def getTrip (idv : Nat) (db : DB) : Option Trip :=
  db.trips.find? (fun t => t.id == idv)

/-- Key order of the `trips` store (`getAll` returns records by key). -/
def tripIdLe (a b : Trip) : Prop := a.id ≤ b.id

instance : DecidableRel tripIdLe := fun a b => Nat.decLe a.id b.id

instance : IsTotal Trip tripIdLe := ⟨fun a b => Nat.le_total a.id b.id⟩

instance : IsTrans Trip tripIdLe := ⟨fun _ _ _ h1 h2 => Nat.le_trans h1 h2⟩

/-- The comparator `(a, b) => new Date(b.startDate) - new Date(a.startDate)`
orders `a` before `b` exactly when `b.startDate ≤ a.startDate`. -/
def tripStartDesc (a b : Trip) : Prop := b.startDate ≤ a.startDate

instance : DecidableRel tripStartDesc := fun a b => Nat.decLe b.startDate a.startDate

instance : IsTotal Trip tripStartDesc := ⟨fun a b => Nat.le_total b.startDate a.startDate⟩

instance : IsTrans Trip tripStartDesc := ⟨fun _ _ _ h1 h2 => Nat.le_trans h2 h1⟩

/-- `getAllTrips()`: `store.getAll()` (key order) followed by the stable
JS sort with the startDate-descending comparator. -/
def getAllTrips (db : DB) : List Trip :=
  List.insertionSort tripStartDesc (List.insertionSort tripIdLe db.trips)

/-- Key order of the `photos` store. -/
def photoIdLe (a b : Photo) : Prop := a.id ≤ b.id

instance : DecidableRel photoIdLe := fun a b => Nat.decLe a.id b.id

instance : IsTotal Photo photoIdLe := ⟨fun a b => Nat.le_total a.id b.id⟩

instance : IsTrans Photo photoIdLe := ⟨fun _ _ _ h1 h2 => Nat.le_trans h1 h2⟩

/-- `addPhoto(photoData)`: `store.add(photoData)` on the `photos` store —
same keying behaviour as `addTrip`, no stamping. -/
def addPhoto (pd : PhotoData) (db : DB) : Except DBError (Nat × DB) :=
  match pd.id with
  | some k =>
      if db.photos.any (fun p => p.id == k) then
        .error .constraintError
      else
        .ok (k, { db with photos := db.photos ++ [⟨k, pd.tripId, pd.data⟩],
                          photoGen := max db.photoGen (k + 1) })
  | none =>
      .ok (db.photoGen, { db with photos := db.photos ++ [⟨db.photoGen, pd.tripId, pd.data⟩],
                                  photoGen := db.photoGen + 1 })

/-- `getPhotosByTripId(tripId)`: `index('tripId').getAll(parseInt(tripId))`
— all photos whose `tripId` equals the argument, in primary-key order. -/
def getPhotosByTripId (tid : Nat) (db : DB) : List Photo :=
  List.insertionSort photoIdLe (db.photos.filter (fun p => p.tripId == tid))

/-- `deletePhoto(id)`: `store.delete(parseInt(id))`. -/
def deletePhoto (pid : Nat) (db : DB) : DB :=
  { db with photos := db.photos.filter (fun p => !(p.id == pid)) }

/-- `deletePhotosByTripId(tripId)`: fetches the photos for `tripId` and
deletes each one individually by its id. -/
def deletePhotosByTripId (tid : Nat) (db : DB) : DB :=
  (getPhotosByTripId tid db).foldl (fun d p => deletePhoto p.id d) db

/-- `deleteTrip(id)`: first `deletePhotosByTripId(id)`, then
`store.delete(parseInt(id))` on the `trips` store. -/
def deleteTrip (idv : Nat) (db : DB) : DB :=
  let db1 := deletePhotosByTripId idv db
  { db1 with trips := db1.trips.filter (fun t => !(t.id == idv)) }

/-- `getAllPhotos()`: `store.getAll()` in key order. -/
def getAllPhotos (db : DB) : List Photo :=
  List.insertionSort photoIdLe db.photos

/-- JS truthiness of a possibly-absent string field: `undefined` and the
empty string are falsy. -/
def truthyStr : Option String → Bool
  | none => false
  | some s => !(s == "")

/-- Result shape of `getStats()`. -/
structure Stats where
  countries : Nat
  cities : Nat
  places : Nat
  photos : Nat
  trips : Nat
deriving DecidableEq

/-- `getStats()`: full scans of both stores;
`new Set(trips.map(t => t.country).filter(Boolean)).size` is the number of
distinct truthy values, `places` counts trips with a truthy `place`. -/
def getStats (db : DB) : Stats :=
  let trips := getAllTrips db
  let photos := getAllPhotos db
  { countries := ((trips.map (fun t => t.country)).filter truthyStr).dedup.length,
    cities := ((trips.map (fun t => t.city)).filter truthyStr).dedup.length,
    places := (trips.filter (fun t => truthyStr t.place)).length,
    photos := photos.length,
    trips := trips.length }

/-- The export/import document: `exportData` fills every field; an
arbitrary import input may lack `trips` or `photos` (the `Option`s — a present
empty array is truthy in the `!data.trips` check, so `some []` passes). -/
structure DataDoc where
  version : Nat
  exportDate : Nat
  trips : Option (List Trip)
  photos : Option (List Photo)
deriving DecidableEq

/-- `exportData()`: `{version, exportDate, trips: getAllTrips(), photos: getAllPhotos()}`. -/
def exportData (now : Nat) (db : DB) : DataDoc :=
  { version := 1, exportDate := now,
    trips := some (getAllTrips db), photos := some (getAllPhotos db) }

/-- `clearAllData()`: `clear()` on both stores.  IndexedDB `clear` does
not reset the key generators. -/
def clearAllData (db : DB) : DB :=
  { db with trips := [], photos := [] }

/-- `const { id, ...tripData } = trip` — the trip payload with the key
stripped, everything else (timestamps included) kept. -/
def stripTrip (t : Trip) : TripData :=
  { id := none, title := t.title, country := t.country, city := t.city,
    place := t.place, startDate := t.startDate, notes := t.notes,
    favorite := t.favorite, createdAt := t.createdAt, updatedAt := some t.updatedAt }

/-- `const { id, ...photoData } = photo` — the photo payload with the key
stripped; `tripId` is kept verbatim. -/
def stripPhoto (p : Photo) : PhotoData :=
  { id := none, tripId := p.tripId, data := p.data }

/-- The `for (const trip of data.trips)` loop of `importData`. -/
def importTripsLoop (now : Nat) : List Trip → DB → Except DBError DB
  | [], db => .ok db
  | t :: ts, db =>
      match addTrip now (stripTrip t) db with
      | .error e => .error e
      | .ok (_, db1) => importTripsLoop now ts db1

/-- The `for (const photo of data.photos)` loop of `importData`. -/
def importPhotosLoop : List Photo → DB → Except DBError DB
  | [], db => .ok db
  | p :: ps, db =>
      match addPhoto (stripPhoto p) db with
      | .error e => .error e
      | .ok (_, db1) => importPhotosLoop ps db1

/-- `importData(data)`: throws on a missing `trips` field, else clears all
data, re-adds every trip with its id stripped, then (when `photos` is
present) every photo with its id stripped. -/
def importData (now : Nat) (doc : DataDoc) (db : DB) : Except DBError DB :=
  match doc.trips with
  | none => .error .invalidDataFormat
  | some ts =>
      match importTripsLoop now ts (clearAllData db) with
      | .error e => .error e
      | .ok db1 =>
          match doc.photos with
          | none => .ok db1
          | some ps => importPhotosLoop ps db1

/-- The user-visible payload of a trip record — everything except the
store-assigned key and timestamps. -/
def tripPayload (t : Trip) :
    Option String × Option String × Option String × Option String × Nat × Option String × Bool :=
  (t.title, t.country, t.city, t.place, t.startDate, t.notes, t.favorite)

/-- The trips produced by the import loop when the store's trip generator
stands at `g`: fresh consecutive keys, payloads from the document,
timestamps stamped with the import time. -/
def importTripsFrom (now g : Nat) : List Trip → List Trip
  | [] => []
  | t :: ts => mkAddedTrip g now (stripTrip t) :: importTripsFrom now (g + 1) ts

/-- The photos produced by the import loop when the photo generator stands
at `g`: fresh consecutive keys, `tripId` and `data` from the document. -/
def importPhotosFrom (g : Nat) : List Photo → List Photo
  | [] => []
  | p :: ps => ⟨g, p.tripId, p.data⟩ :: importPhotosFrom (g + 1) ps

section Lemmas

theorem mem_getPhotosByTripId {p : Photo} {tid : Nat} {db : DB} :
    p ∈ getPhotosByTripId tid db ↔ p ∈ db.photos ∧ p.tripId = tid := by
  unfold getPhotosByTripId
  rw [(List.perm_insertionSort photoIdLe _).mem_iff, List.mem_filter]
  simp

theorem foldl_deletePhoto_trips (L : List Photo) (db : DB) :
    (L.foldl (fun d p => deletePhoto p.id d) db).trips = db.trips := by
  induction L generalizing db with
  | nil => rfl
  | cons p L ih => rw [List.foldl_cons, ih]; rfl

theorem foldl_deletePhoto_photos (L : List Photo) (db : DB) :
    (L.foldl (fun d p => deletePhoto p.id d) db).photos
      = db.photos.filter (fun q => !(L.any (fun p => q.id == p.id))) := by
  induction L generalizing db with
  | nil => simp
  | cons p L ih =>
      rw [List.foldl_cons, ih]
      have hp : (deletePhoto p.id db).photos = db.photos.filter (fun q => !(q.id == p.id)) := rfl
      rw [hp, List.filter_filter]
      apply List.filter_congr
      intro x _
      simp [Bool.not_or, Bool.and_comm]

theorem deletePhotosByTripId_trips (tid : Nat) (db : DB) :
    (deletePhotosByTripId tid db).trips = db.trips :=
  foldl_deletePhoto_trips _ _

theorem deletePhotosByTripId_photos (tid : Nat) (db : DB) :
    (deletePhotosByTripId tid db).photos
      = db.photos.filter
          (fun q => !((getPhotosByTripId tid db).any (fun p => q.id == p.id))) :=
  foldl_deletePhoto_photos _ _

theorem find?_map_replace (idv now : Nat) (td : TripData) (l : List Trip)
    (h : l.any (fun t => t.id == idv) = true) :
    (l.map (fun t => if t.id == idv then mkUpdatedTrip idv now td else t)).find?
        (fun t => t.id == idv)
      = some (mkUpdatedTrip idv now td) := by
  induction l with
  | nil => simp at h
  | cons t l ih =>
      rw [List.map_cons]
      by_cases ht : t.id = idv
      · rw [if_pos (by simp [ht])]
        exact List.find?_cons_of_pos _ (by simp [mkUpdatedTrip])
      · rw [if_neg (by simp [ht])]
        rw [List.find?_cons_of_neg _ (by simp [ht])]
        apply ih
        rw [List.any_cons] at h
        simpa [ht] using h

theorem importTripsLoop_ok (now : Nat) (ts : List Trip) : ∀ db : DB,
    importTripsLoop now ts db
      = .ok { db with trips := db.trips ++ importTripsFrom now db.tripGen ts,
                      tripGen := db.tripGen + ts.length } := by
  induction ts with
  | nil => intro db; simp [importTripsLoop, importTripsFrom]
  | cons t ts ih =>
      intro db
      show importTripsLoop now ts
          { db with trips := db.trips ++ [mkAddedTrip db.tripGen now (stripTrip t)],
                    tripGen := db.tripGen + 1 } = _
      rw [ih]
      simp only [importTripsFrom, List.length_cons]
      congr 1
      simp [List.append_assoc, Nat.add_comm, Nat.add_assoc, Nat.add_left_comm]

theorem importPhotosLoop_ok (ps : List Photo) : ∀ db : DB,
    importPhotosLoop ps db
      = .ok { db with photos := db.photos ++ importPhotosFrom db.photoGen ps,
                      photoGen := db.photoGen + ps.length } := by
  induction ps with
  | nil => intro db; simp [importPhotosLoop, importPhotosFrom]
  | cons p ps ih =>
      intro db
      show importPhotosLoop ps
          { db with photos := db.photos ++ [⟨db.photoGen, p.tripId, p.data⟩],
                    photoGen := db.photoGen + 1 } = _
      rw [ih]
      simp only [importPhotosFrom, List.length_cons]
      congr 1
      simp [List.append_assoc, Nat.add_comm, Nat.add_assoc, Nat.add_left_comm]

theorem importTripsFrom_map_payload (now : Nat) (ts : List Trip) : ∀ g : Nat,
    (importTripsFrom now g ts).map tripPayload = ts.map tripPayload := by
  induction ts with
  | nil => intro g; rfl
  | cons t ts ih => intro g; simp [importTripsFrom, tripPayload, mkAddedTrip, stripTrip, ih]

theorem importTripsFrom_map_id (now : Nat) (ts : List Trip) : ∀ g : Nat,
    (importTripsFrom now g ts).map Trip.id = List.range' g ts.length := by
  induction ts with
  | nil => intro g; rfl
  | cons t ts ih =>
      intro g
      simp only [List.length_cons, List.range'_succ]
      simp [importTripsFrom, mkAddedTrip, ih]

theorem importTripsFrom_length (now : Nat) (ts : List Trip) : ∀ g : Nat,
    (importTripsFrom now g ts).length = ts.length := by
  induction ts with
  | nil => intro g; rfl
  | cons t ts ih => intro g; simp [importTripsFrom, ih]

theorem importPhotosFrom_map_tripId (ps : List Photo) : ∀ g : Nat,
    (importPhotosFrom g ps).map Photo.tripId = ps.map Photo.tripId := by
  induction ps with
  | nil => intro g; rfl
  | cons p ps ih => intro g; simp [importPhotosFrom, ih]

theorem importPhotosFrom_map_data (ps : List Photo) : ∀ g : Nat,
    (importPhotosFrom g ps).map Photo.data = ps.map Photo.data := by
  induction ps with
  | nil => intro g; rfl
  | cons p ps ih => intro g; simp [importPhotosFrom, ih]

theorem importPhotosFrom_map_id (ps : List Photo) : ∀ g : Nat,
    (importPhotosFrom g ps).map Photo.id = List.range' g ps.length := by
  induction ps with
  | nil => intro g; rfl
  | cons p ps ih =>
      intro g
      simp only [List.length_cons, List.range'_succ]
      simp [importPhotosFrom, ih]

theorem importPhotosFrom_length (ps : List Photo) : ∀ g : Nat,
    (importPhotosFrom g ps).length = ps.length := by
  induction ps with
  | nil => intro g; rfl
  | cons p ps ih => intro g; simp [importPhotosFrom, ih]

theorem getAllTrips_perm (db : DB) : List.Perm (getAllTrips db) db.trips :=
  (List.perm_insertionSort tripStartDesc _).trans (List.perm_insertionSort tripIdLe _)

theorem getAllPhotos_perm (db : DB) : List.Perm (getAllPhotos db) db.photos :=
  List.perm_insertionSort photoIdLe _

end Lemmas

/-! ### Concrete fixtures used by counterexamples and witnesses -/

/-- A fully populated trip payload (no caller-supplied id). -/
def tdSample : TripData :=
  { id := none, title := some "Paris", country := some "France",
    city := some "Paris", place := some "Louvre", startDate := 100,
    notes := some "great", favorite := false, createdAt := none, updatedAt := none }

/-- A payload with every required field (`title`, `country`, `city`)
absent — `startDate` missing is modelled by its default instant. -/
def tdMissingAll : TripData :=
  { id := none, title := none, country := none, city := none, place := none,
    startDate := 0, notes := none, favorite := false,
    createdAt := none, updatedAt := none }

/-! ### C1 -/

/-- C1: for every trip id `t` and every store state, `deleteTrip t` (which
removes all photos referencing `t` before removing the trip record) leaves
a state in which `getPhotosByTripId t` returns the empty sequence. -/
theorem C1_deleteTrip_then_getPhotosByTripId_empty (tid : Nat) (db : DB) :
    getPhotosByTripId tid (deleteTrip tid db) = [] := by
  have hphotos : (deleteTrip tid db).photos = (deletePhotosByTripId tid db).photos := rfl
  unfold getPhotosByTripId
  rw [hphotos, deletePhotosByTripId_photos, List.filter_filter]
  have hnil : db.photos.filter
      (fun q => (q.tripId == tid) &&
        !((getPhotosByTripId tid db).any (fun p => q.id == p.id))) = [] := by
    rw [List.filter_eq_nil_iff]
    intro q hq hpred
    rw [Bool.and_eq_true] at hpred
    obtain ⟨h1, h2⟩ := hpred
    have hmem : q ∈ getPhotosByTripId tid db :=
      mem_getPhotosByTripId.mpr ⟨hq, by simpa using h1⟩
    have hany : (getPhotosByTripId tid db).any (fun p => q.id == p.id) = true :=
      List.any_eq_true.mpr ⟨q, hmem, by simp⟩
    rw [hany] at h2
    simp at h2
  rw [hnil]
  rfl

/-! ### C10 -/

/-- C10: `deleteTrip t` affects only the trip `t` and the photos
referencing `t` — the surviving trips are exactly those with a different
id and the surviving photos exactly those with a different `tripId`
(assuming the store invariant that photo keys are unique). -/
theorem C10_deleteTrip_frame (tid : Nat) (db : DB)
    (h : (db.photos.map Photo.id).Nodup) :
    (deleteTrip tid db).trips = db.trips.filter (fun t => !(t.id == tid)) ∧
    (deleteTrip tid db).photos = db.photos.filter (fun p => !(p.tripId == tid)) := by
  constructor
  · show (deletePhotosByTripId tid db).trips.filter _ = _
    rw [deletePhotosByTripId_trips]
  · show (deletePhotosByTripId tid db).photos = _
    rw [deletePhotosByTripId_photos]
    apply List.filter_congr
    intro q hq
    have hkey : ((getPhotosByTripId tid db).any (fun p => q.id == p.id))
        = (q.tripId == tid) := by
      cases hqt : (q.tripId == tid) with
      | true =>
          rw [List.any_eq_true]
          exact ⟨q, mem_getPhotosByTripId.mpr ⟨hq, by simpa using hqt⟩, by simp⟩
      | false =>
          rw [List.any_eq_false]
          intro p hp hqp
          obtain ⟨hpmem, hptid⟩ := mem_getPhotosByTripId.mp hp
          have hqid : q.id = p.id := by simpa using hqp
          have hq_eq_p : q = p := List.inj_on_of_nodup_map h hq hpmem hqid
          rw [hq_eq_p, hptid] at hqt
          simp at hqt
    rw [hkey]

/-- A concrete two-trip, two-photo store used by the C10 witness. -/
def dbTwo : DB :=
  { trips := [mkAddedTrip 1 0 tdSample, mkAddedTrip 2 0 tdSample],
    photos := [{ id := 1, tripId := 1, data := "a" }, { id := 2, tripId := 2, data := "b" }],
    tripGen := 3, photoGen := 3 }

/-- C10 (witness): the frame theorem applied to a concrete two-trip,
two-photo store. -/
theorem C10_deleteTrip_frame_witness :
    (dbTwo.photos.map Photo.id).Nodup ∧
    ((deleteTrip 1 dbTwo).trips = dbTwo.trips.filter (fun t => !(t.id == 1)) ∧
     (deleteTrip 1 dbTwo).photos = dbTwo.photos.filter (fun p => !(p.tripId == 1))) :=
  ⟨by decide, C10_deleteTrip_frame 1 dbTwo (by decide)⟩

/-! ### C2 -/

/-- C2 (counterexample): `addTrip` applied to a payload with every
required field absent does not fail — it succeeds and adds a record, so
the claimed `ValidationError` does not exist in the code. -/
theorem C2_cex_addTrip_accepts_missing_fields :
    tdMissingAll.title = none ∧ tdMissingAll.country = none ∧
    tdMissingAll.city = none ∧
    addTrip 0 tdMissingAll emptyDB
      = .ok (1, { trips := [mkAddedTrip 1 0 tdMissingAll], photos := [],
                  tripGen := 2, photoGen := 1 }) :=
  ⟨rfl, rfl, rfl, rfl⟩

/-- C2 (amended): `addTrip` performs no validation of required fields —
for every payload without a caller-supplied id (in particular one whose
title, country and city are all absent) it succeeds and appends a record
under a store-assigned key. -/
theorem C2_addTrip_no_validation (now : Nat) (td : TripData) (db : DB)
    (h : td.id = none) :
    addTrip now td db
      = .ok (db.tripGen,
          { db with trips := db.trips ++ [mkAddedTrip db.tripGen now td],
                    tripGen := db.tripGen + 1 }) := by
  unfold addTrip
  rw [h]

/-- C2 (witness): the amended theorem applied to the all-fields-absent
payload on the fresh store. -/
theorem C2_addTrip_no_validation_witness :
    tdMissingAll.id = none ∧
    addTrip 0 tdMissingAll emptyDB
      = .ok (1, { emptyDB with trips := emptyDB.trips ++ [mkAddedTrip 1 0 tdMissingAll],
                               tripGen := 2 }) :=
  ⟨rfl, C2_addTrip_no_validation 0 tdMissingAll emptyDB rfl⟩

/-! ### C3 -/

/-- C3 (counterexample): `updateTrip` on an id that does not exist does
not fail with `NotFound` and does not leave the collection unchanged — it
creates a record at that id (IndexedDB `put` upserts). -/
theorem C3_cex_updateTrip_creates_at_missing_id :
    getTrip 5 emptyDB = none ∧
    emptyDB.trips = [] ∧
    (updateTrip 7 5 tdSample emptyDB).2.trips = [mkUpdatedTrip 5 7 tdSample] :=
  ⟨rfl, rfl, rfl⟩

/-- C3 (amended): `updateTrip id tripData` never reports `NotFound`: when
no record with key `id` exists it creates one at that id (upsert), keyed
`id`, rather than failing. -/
theorem C3_updateTrip_upserts_missing_id (now idv : Nat) (td : TripData) (db : DB)
    (h : db.trips.any (fun t => t.id == idv) = false) :
    updateTrip now idv td db
      = (idv, { db with trips := db.trips ++ [mkUpdatedTrip idv now td],
                        tripGen := max db.tripGen (idv + 1) }) := by
  unfold updateTrip
  rw [h]
  simp

/-- C3 (witness): the amended theorem applied to id 5 on the empty store. -/
theorem C3_updateTrip_upserts_missing_id_witness :
    (emptyDB.trips.any (fun t => t.id == 5)) = false ∧
    updateTrip 7 5 tdSample emptyDB
      = (5, { emptyDB with trips := emptyDB.trips ++ [mkUpdatedTrip 5 7 tdSample],
                           tripGen := max emptyDB.tripGen 6 }) :=
  ⟨rfl, C3_updateTrip_upserts_missing_id 7 5 tdSample emptyDB rfl⟩

/-! ### C4 -/

/-- The sample payload carrying a caller-chosen id. -/
def tdWithId5 : TripData := { tdSample with id := some 5 }

/-- C4 (counterexample): `addTrip` does not ignore a caller-supplied id —
the payload's `id: 5` survives the spread, IndexedDB `add` keys the record
by it, and the stored record's id is exactly the caller's 5 (the generator
is merely bumped past it). -/
theorem C4_cex_addTrip_keeps_caller_id :
    tdWithId5.id = some 5 ∧
    addTrip 0 tdWithId5 emptyDB
      = .ok (5, { trips := [mkAddedTrip 5 0 tdWithId5], photos := [],
                  tripGen := 6, photoGen := 1 }) ∧
    [mkAddedTrip 5 0 tdWithId5].map Trip.id = [5] :=
  ⟨rfl, rfl, rfl⟩

/-- C4 (amended): `addTrip` does not strip a caller-supplied id: when the
payload carries `id = k` and no record with key `k` exists, the stored
record is keyed by the caller's `k` (and `add` fails with a constraint
error on collision); only a payload without an id receives a
store-assigned key. -/
theorem C4_addTrip_honors_caller_id (now k : Nat) (td : TripData) (db : DB)
    (hid : td.id = some k) (hfree : db.trips.any (fun t => t.id == k) = false) :
    addTrip now td db
      = .ok (k, { db with trips := db.trips ++ [mkAddedTrip k now td],
                          tripGen := max db.tripGen (k + 1) }) := by
  simp [addTrip, hid, hfree]

/-- C4 (witness): the amended theorem applied to the id-5 payload on the
empty store. -/
theorem C4_addTrip_honors_caller_id_witness :
    tdWithId5.id = some 5 ∧
    (emptyDB.trips.any (fun t => t.id == 5)) = false ∧
    addTrip 0 tdWithId5 emptyDB
      = .ok (5, { emptyDB with trips := emptyDB.trips ++ [mkAddedTrip 5 0 tdWithId5],
                               tripGen := max emptyDB.tripGen 6 }) :=
  ⟨rfl, rfl, C4_addTrip_honors_caller_id 0 5 tdWithId5 emptyDB rfl rfl⟩

/-! ### C5 -/

/-- A stored record created at time 10 (so `createdAt = some 10`). -/
def tripC5 : Trip := mkAddedTrip 1 10 tdSample

/-- A one-trip store holding `tripC5`. -/
def dbC5 : DB := { trips := [tripC5], photos := [], tripGen := 2, photoGen := 1 }

/-- C5 (counterexample): updating with a payload that does not carry the
prior `createdAt` (`tdSample.createdAt = none`) loses it — after
`updateTrip` the record's `createdAt` is `none`, not the pre-update
`some 10`, so the claim fails for arbitrary `tripData`. -/
theorem C5_cex_createdAt_lost_without_caller_copy :
    tdSample.createdAt = none ∧
    (getTrip 1 dbC5).map Trip.createdAt = some (some 10) ∧
    (getTrip 1 ((updateTrip 20 1 tdSample dbC5).2)).map Trip.createdAt = some none :=
  ⟨rfl, rfl, rfl⟩

/-- C5 (amended): for an existing trip, when the payload carries the
prior record's `createdAt` (exactly what the app's `handleTripSubmit`
does before calling `updateTrip`) and the update instant is later than
the pre-update `updatedAt`, `updateTrip` followed by `getTrip` yields a
record with the id preserved, `createdAt` unchanged and `updatedAt`
strictly greater than before. -/
theorem C5_update_then_get_preserves (now idv : Nat) (td : TripData) (db : DB)
    (t0 : Trip) (hget : getTrip idv db = some t0)
    (hcreated : td.createdAt = t0.createdAt)
    (htime : t0.updatedAt < now) :
    ∃ t1, getTrip idv ((updateTrip now idv td db).2) = some t1 ∧
      t1.id = idv ∧ t1.createdAt = t0.createdAt ∧ t0.updatedAt < t1.updatedAt := by
  have hget2 : db.trips.find? (fun t => t.id == idv) = some t0 := hget
  have hmem : t0 ∈ db.trips := List.mem_of_find?_eq_some hget2
  have hpred := List.find?_some hget2
  have hany : db.trips.any (fun t => t.id == idv) = true :=
    List.any_eq_true.mpr ⟨t0, hmem, hpred⟩
  refine ⟨mkUpdatedTrip idv now td, ?_, rfl, hcreated, htime⟩
  show getTrip idv (updateTrip now idv td db).2 = some (mkUpdatedTrip idv now td)
  unfold updateTrip getTrip
  rw [if_pos hany]
  exact find?_map_replace idv now td db.trips hany

/-- The updating payload of the C5 witness: it copies the prior record's
`createdAt`, as `handleTripSubmit` does. -/
def tdC5good : TripData := { tdSample with createdAt := some 10 }

/-- C5 (witness): the amended theorem applied to the one-trip store at
update time 20. -/
theorem C5_update_then_get_preserves_witness :
    getTrip 1 dbC5 = some tripC5 ∧
    tdC5good.createdAt = tripC5.createdAt ∧
    tripC5.updatedAt < 20 ∧
    (∃ t1, getTrip 1 ((updateTrip 20 1 tdC5good dbC5).2) = some t1 ∧
      t1.id = 1 ∧ t1.createdAt = tripC5.createdAt ∧ tripC5.updatedAt < t1.updatedAt) :=
  ⟨rfl, rfl, by decide,
    C5_update_then_get_preserves 20 1 tdC5good dbC5 tripC5 rfl rfl (by decide)⟩

/-! ### C6 -/

/-- Payload "A" with startDate 5. -/
def tdA5 : TripData := { tdMissingAll with title := some "A", startDate := 5 }

/-- Payload "B" with the same startDate 5. -/
def tdB5 : TripData := { tdMissingAll with title := some "B", startDate := 5 }

/-- The store after inserting A then B. -/
def dbAB : DB :=
  { trips := [mkAddedTrip 1 0 tdA5, mkAddedTrip 2 0 tdB5], photos := [],
    tripGen := 3, photoGen := 1 }

/-- The store after inserting B then A. -/
def dbBA : DB :=
  { trips := [mkAddedTrip 1 0 tdB5, mkAddedTrip 2 0 tdA5], photos := [],
    tripGen := 3, photoGen := 1 }

/-- C6 (counterexample): the same two trips inserted in the two orders
give different `getAllTrips` outputs — their startDates tie, the JS sort
is stable, so the tie is broken by insertion (key) order: titles come out
`[A, B]` one way and `[B, A]` the other.  The sorted output therefore
does depend on insertion order. -/
theorem C6_cex_ties_follow_insertion_order :
    (addTrip 0 tdA5 emptyDB).bind (fun r => addTrip 0 tdB5 r.2) = .ok (2, dbAB) ∧
    (addTrip 0 tdB5 emptyDB).bind (fun r => addTrip 0 tdA5 r.2) = .ok (2, dbBA) ∧
    (getAllTrips dbAB).map Trip.title = [some "A", some "B"] ∧
    (getAllTrips dbBA).map Trip.title = [some "B", some "A"] :=
  ⟨rfl, rfl, by decide, by decide⟩

/-- C6 (amended): `getAllTrips` returns exactly the stored trips (a
permutation of the store's contents) sorted by startDate descending; on
equal startDates the stable sort keeps store-key order, so the output is
insertion-order independent only when startDates are distinct. -/
theorem C6_getAllTrips_sorted_desc (db : DB) :
    List.Sorted tripStartDesc (getAllTrips db) ∧
    List.Perm (getAllTrips db) db.trips :=
  ⟨List.sorted_insertionSort tripStartDesc _, getAllTrips_perm db⟩

/-! ### C7 -/

/-- C7: a successful `importData` first clears both collections, then
re-adds every trip of the document with its original id stripped — the
resulting trips carry consecutive store-issued keys starting at the
current generator value and exactly the document's payloads — and every
photo with its id stripped but its `tripId` kept verbatim (not remapped
to the owning trip's freshly issued id). -/
theorem C7_importData_replaces_and_keeps_tripId (now : Nat) (doc : DataDoc) (db : DB)
    (ts : List Trip) (ps : List Photo)
    (hts : doc.trips = some ts) (hps : doc.photos = some ps) :
    importData now doc db
      = .ok { trips := importTripsFrom now db.tripGen ts,
              photos := importPhotosFrom db.photoGen ps,
              tripGen := db.tripGen + ts.length,
              photoGen := db.photoGen + ps.length } ∧
    (importTripsFrom now db.tripGen ts).map tripPayload = ts.map tripPayload ∧
    (importTripsFrom now db.tripGen ts).map Trip.id = List.range' db.tripGen ts.length ∧
    (importPhotosFrom db.photoGen ps).map Photo.tripId = ps.map Photo.tripId ∧
    (importPhotosFrom db.photoGen ps).map Photo.data = ps.map Photo.data ∧
    (importPhotosFrom db.photoGen ps).map Photo.id = List.range' db.photoGen ps.length := by
  refine ⟨?_, importTripsFrom_map_payload now ts db.tripGen,
          importTripsFrom_map_id now ts db.tripGen,
          importPhotosFrom_map_tripId ps db.photoGen,
          importPhotosFrom_map_data ps db.photoGen,
          importPhotosFrom_map_id ps db.photoGen⟩
  simp only [importData, hts, importTripsLoop_ok, hps, importPhotosLoop_ok]
  simp [clearAllData]

/-- The trip record of the C7/C8 round-trip fixtures. -/
def tripX : Trip := mkAddedTrip 1 10 tdSample

/-- The photo record of the C7/C8 round-trip fixtures: note its key 9. -/
def photoX : Photo := { id := 9, tripId := 1, data := "img" }

/-- An import document carrying one trip and one photo. -/
def docC7 : DataDoc :=
  { version := 1, exportDate := 0, trips := some [tripX], photos := some [photoX] }

/-- A store with one trip, one photo and advanced generators. -/
def dbC7 : DB := { trips := [tripX], photos := [photoX], tripGen := 2, photoGen := 10 }

/-- C7 (witness): the import characterization applied to the one-trip,
one-photo document on a concrete store. -/
theorem C7_importData_replaces_and_keeps_tripId_witness :
    importData 20 docC7 dbC7
      = .ok { trips := importTripsFrom 20 dbC7.tripGen [tripX],
              photos := importPhotosFrom dbC7.photoGen [photoX],
              tripGen := dbC7.tripGen + 1,
              photoGen := dbC7.photoGen + 1 } ∧
    (importTripsFrom 20 dbC7.tripGen [tripX]).map tripPayload = [tripX].map tripPayload ∧
    (importTripsFrom 20 dbC7.tripGen [tripX]).map Trip.id = List.range' dbC7.tripGen 1 ∧
    (importPhotosFrom dbC7.photoGen [photoX]).map Photo.tripId = [photoX].map Photo.tripId ∧
    (importPhotosFrom dbC7.photoGen [photoX]).map Photo.data = [photoX].map Photo.data ∧
    (importPhotosFrom dbC7.photoGen [photoX]).map Photo.id = List.range' dbC7.photoGen 1 :=
  C7_importData_replaces_and_keeps_tripId 20 docC7 dbC7 [tripX] [photoX] rfl rfl

/-! ### C8 -/

/-- C8: for every store state, the round-trip `importData(exportData())`
succeeds and the resulting store has the same number of trips and the
same number of photos as before. -/
theorem C8_export_import_roundtrip_counts (now expT : Nat) (db : DB) :
    ∃ db2 : DB, importData now (exportData expT db) db = .ok db2 ∧
      db2.trips.length = db.trips.length ∧
      db2.photos.length = db.photos.length := by
  refine ⟨{ trips := importTripsFrom now db.tripGen (getAllTrips db),
            photos := importPhotosFrom db.photoGen (getAllPhotos db),
            tripGen := db.tripGen + (getAllTrips db).length,
            photoGen := db.photoGen + (getAllPhotos db).length }, ?_, ?_, ?_⟩
  · simp only [importData, exportData, importTripsLoop_ok, importPhotosLoop_ok]
    simp [clearAllData]
  · rw [importTripsFrom_length]
    exact (getAllTrips_perm db).length_eq
  · rw [importPhotosFrom_length]
    exact (getAllPhotos_perm db).length_eq

/-! ### C9 -/

/-- C9: `getStats` returns exactly the number of distinct truthy country
values, the number of distinct truthy city values, the number of trips
with a truthy place, the total photo count and the total trip count — in
particular `(getStats db).trips` always equals the store's current trip
count, whatever sequence of operations produced `db`. -/
theorem C9_getStats_characterization (db : DB) :
    getStats db
      = { countries := ((db.trips.map (fun t => t.country)).filter truthyStr).dedup.length,
          cities := ((db.trips.map (fun t => t.city)).filter truthyStr).dedup.length,
          places := (db.trips.filter (fun t => truthyStr t.place)).length,
          photos := db.photos.length,
          trips := db.trips.length } := by
  have hperm := getAllTrips_perm db
  have hp := getAllPhotos_perm db
  dsimp only [getStats]
  congr 1
  · exact (((hperm.map (fun t => t.country)).filter truthyStr).dedup).length_eq
  · exact (((hperm.map (fun t => t.city)).filter truthyStr).dedup).length_eq
  · exact (hperm.filter (fun t => truthyStr t.place)).length_eq
  · exact hp.length_eq
  · exact hperm.length_eq

end TripLogbook
